import Mathlib

/-!
Verification of the EIA plant-data pipeline (`src/main.py`,
`src/deepseek_enrichment.py`).

The pandas DataFrames of the source are embedded as lists of records.  A
cell that may be `NaN`/missing is an `Option`; the raw generation column,
which may additionally hold a non-parseable string before
`pd.to_numeric(..., errors="coerce")` runs, is a three-valued `GenVal`.
Numeric cells are rationals (`ℚ`): the source only performs field
arithmetic (one division and multiplications) on them, which is exact in
`ℚ` on the inputs considered.
-/

set_option autoImplicit false

namespace EIAPipeline

/-- A generation-volume cell before/after numeric coercion:
a parsed number, a non-parseable (string) cell, or a missing cell (`NaN`). -/
inductive GenVal where
  | num (q : ℚ)
  | nonNumeric
  | missing
deriving DecidableEq

/-- Value of `pd.to_numeric(cell, errors="coerce")` on one cell:
numbers survive, everything else becomes `NaN` (here `missing`). -/
def coerceVal : GenVal → GenVal
  | .num q => .num q
  | .nonNumeric => .missing
  | .missing => .missing

/-- Numeric content of a cell, `none` for `NaN`/non-parseable. -/
def GenVal.toNum : GenVal → Option ℚ
  | .num q => some q
  | .nonNumeric => none
  | .missing => none

/-- One row of the raw EIA generation table (`RawGenerationRow`).
Field `grossGeneration` embeds the `gross-generation` column,
`grossGenerationUnits` the `gross-generation-units` column. -/
structure RawRow where
  period : String
  plantCode : String
  plantName : String
  state : String
  stateDescription : Option String
  fuel2002 : String
  fuelTypeDescription : Option String
  primeMover : String
  grossGeneration : GenVal
  grossGenerationUnits : String
deriving DecidableEq

/-- The coercion `df["gross-generation"] = pd.to_numeric(df["gross-generation"], errors="coerce")`
applied to one row (`main.py` lines 193-195). -/
def coerceRow (r : RawRow) : RawRow :=
  { r with grossGeneration := coerceVal r.grossGeneration }

/-- The mask `(df["fuel2002"] == "ALL") | (df["primeMover"] == "ALL")` (`main.py` line 198). -/
def allMask (r : RawRow) : Bool :=
  r.fuel2002 == "ALL" || r.primeMover == "ALL"

/-- The mask `(df["gross-generation"].isna()) | (df["gross-generation"] == 0)`
(`main.py` lines 199-202), evaluated on the coerced column
(`NaN == 0` is false in pandas, so the zero test only fires on numbers). -/
def zeroGenMask (r : RawRow) : Bool :=
  match r.grossGeneration with
  | .num q => q == 0
  | .nonNumeric => true
  | .missing => true

/-- The mask `df["plantCode"] == "99999"` (`main.py` line 203). -/
def plant99999Mask (r : RawRow) : Bool :=
  r.plantCode == "99999"

/-- Embedding of `clean_data` (`main.py` lines 178-208): coerce the generation column to
numeric, then keep the rows matching `~all_mask & ~zero_gen_mask & ~plant_99999_mask`. -/
def clean_data (l : List RawRow) : List RawRow :=
  (l.map coerceRow).filter (fun r => !allMask r && !zeroGenMask r && !plant99999Mask r)

/-! ### Substring search and lowercasing (Python `str.lower`, `x in s`) -/
/-- Test that the first character list is a prefix of the second. -/
def pfxEq : List Char → List Char → Bool
  | [], _ => true
  | _ :: _, [] => false
  | a :: as, b :: bs => a == b && pfxEq as bs

/-- Test that `n` occurs as a contiguous sublist of the second argument. -/
def subList (n : List Char) : List Char → Bool
  | [] => pfxEq n []
  | b :: bs => pfxEq n (b :: bs) || subList n bs

/-- Python `needle in hay` on strings (contiguous substring search). -/
def containsSub (needle hay : String) : Bool :=
  subList needle.data hay.data

/-- Python `str.lower()` (ASCII case folding suffices for the fuel keywords). -/
def strLower (s : String) : String :=
  ⟨s.data.map Char.toLower⟩

/-- Python `str(x)` on a possibly-`NaN` string cell: `str(nan)` is `"nan"`. -/
def strOfCell : Option String → String
  | some s => s
  | none => "nan"

/-! ### Deterministic anomaly flag (`deepseek_enrichment.py` lines 17-49) -/
/-- Embedding of `flag_basic_capacity_factor(row)`: deterministic capacity-factor flag from
`capacityFactorPercent` and `fuelTypeDescription`.  In the Python source a
matched fuel category whose capacity factor is inside the expected range
falls through to the final `return "Normal"`, and the `elif` chain never
reaches later categories; the nested conditionals below reproduce that. -/
def flag_basic_capacity_factor (cf : Option ℚ) (fd : Option String) : String :=
  match cf with
  | none => "No_Data"
  | some c =>
    let fuel_desc := strLower (strOfCell fd)
    if containsSub "nuclear" fuel_desc then
      if c < 70 ∨ c > 110 then "Unusual_Nuclear" else "Normal"
    else if containsSub "natural gas" fuel_desc || containsSub "gas" fuel_desc
        || containsSub "coal" fuel_desc then
      if c < 20 ∨ c > 90 then "Unusual_Fossil" else "Normal"
    else if containsSub "hydro" fuel_desc || containsSub "water" fuel_desc then
      if c < 10 ∨ c > 80 then "Unusual_Hydro" else "Normal"
    else if containsSub "wind" fuel_desc then
      if c < 5 ∨ c > 60 then "Unusual_Wind" else "Normal"
    else if containsSub "solar" fuel_desc || containsSub "sun" fuel_desc then
      if c < 5 ∨ c > 50 then "Unusual_Solar" else "Normal"
    else "Normal"

/-! ### The discard predicate of claim C5, in the wording of the spec -/
/-- The discard condition exactly as claim C5 words it, on a coerced row:
fuel code or prime-mover code is the sentinel `"ALL"`, or the generation
volume (non-parseable treated as absent) is absent or exactly zero, or the
plant identifier is the sentinel `"99999"`. -/
def discardSpecB (r : RawRow) : Bool :=
  (r.fuel2002 == "ALL" || r.primeMover == "ALL")
    || (match (coerceRow r).grossGeneration.toNum with
        | none => true
        | some q => q == 0)
    || (r.plantCode == "99999")

/-! ### Sorting (`DataFrame.sort_values`) and grouping (`DataFrame.groupby`)

`sort_values(column, ascending=False)` goes through pandas `nargsort`: the
non-null values are reversed, an ascending argsort kernel runs, and the
resulting indexer is reversed.  The kernel is modelled by a stable
insertion sort (numpy's algorithm for short partitions); the tie order of
numpy's quicksort on longer inputs is not specified, and no theorem below
depends on it — only on the result being a permutation.
`groupby(column)` (default `sort=True`) yields the groups in ascending key
order, each group keeping the original row order. -/
/-- Insert into an ascending-sorted list, before the first element that is
not `le`-below the inserted one (stable). -/
def insertLeB {α : Type} (le : α → α → Bool) (a : α) : List α → List α
  | [] => [a]
  | b :: l => if le a b then a :: b :: l else b :: insertLeB le a l

/-- Stable ascending insertion sort. -/
def sortLeB {α : Type} (le : α → α → Bool) : List α → List α
  | [] => []
  | a :: l => insertLeB le a (sortLeB le l)

/-- Embedding of `df.sort_values(key_column, ascending=False)` as pandas `nargsort`
performs it: reverse, ascending kernel, reverse. -/
def sort_values_desc {α : Type} (key : α → ℚ) (l : List α) : List α :=
  (sortLeB (fun a b => decide (key a ≤ key b)) l.reverse).reverse

/-- Lexicographic code-point comparison on character lists (Python string
`<=`). -/
def leChars : List Char → List Char → Bool
  | [], _ => true
  | _ :: _, [] => false
  | a :: as, b :: bs => if a = b then leChars as bs else decide (a < b)

/-- Python `a <= b` on strings, as used by `sorted` and by the ascending
key sort of `groupby`. -/
def strLeB (a b : String) : Bool := leChars a.data b.data

/-! ### Plant aggregation (`aggregate_plants`, `main.py` lines 211-276) -/
/-- One entry of the per-plant fuel breakdown (`main.py` lines 246-253). -/
structure FuelBreakdownEntry where
  fuel2002 : String
  fuelTypeDescription : Option String
  primeMover : String
  generation : GenVal
deriving DecidableEq

/-- One aggregated plant record (`main.py` lines 256-266). -/
structure AggRecord where
  period : String
  plantCode : String
  plantName : String
  state : String
  stateDescription : Option String
  fuelTypeDescription : String
  grossGeneration : ℚ
  grossGenerationUnits : String
  fuelTypes : List FuelBreakdownEntry
deriving DecidableEq

/-- Placeholder used with `List.headD`; every group produced by the grouping
is non-empty, so it is never read. -/
def defaultRawRow : RawRow :=
  { period := "", plantCode := "", plantName := "", state := "",
    stateDescription := none, fuel2002 := "", fuelTypeDescription := none,
    primeMover := "", grossGeneration := .missing, grossGenerationUnits := "" }

/-- Pandas `series.sum()` on a generation column: `NaN` cells are skipped. -/
def sumSkipNA (l : List GenVal) : ℚ :=
  (l.filterMap GenVal.toNum).sum

/-- The per-row breakdown dictionary (`main.py` lines 247-253). -/
def mkBreakdownEntry (r : RawRow) : FuelBreakdownEntry :=
  { fuel2002 := r.fuel2002, fuelTypeDescription := r.fuelTypeDescription,
    primeMover := r.primeMover, generation := r.grossGeneration }

/-- Fold one `groupby` group into its aggregated record (`main.py` lines
231-268): representative fields from the group's first row, generation
summed with `NaN` skipped, distinct non-null fuel descriptions sorted and
comma-joined (`"Mixed"` when none), breakdown one entry per row in order.
`List.dedup` differs from pandas `.unique()` in which duplicate occurrence
it keeps, which is irrelevant once the result is sorted. -/
def aggregateGroup (code : String) (g : List RawRow) : AggRecord :=
  let info := g.headD defaultRawRow
  let fuels := (g.filterMap (fun r => r.fuelTypeDescription)).dedup
  { period := info.period
    plantCode := code
    plantName := info.plantName
    state := info.state
    stateDescription := info.stateDescription
    fuelTypeDescription :=
      if fuels.isEmpty then "Mixed"
      else String.intercalate ", " (sortLeB strLeB fuels)
    grossGeneration := sumSkipNA (g.map (fun r => r.grossGeneration))
    grossGenerationUnits := info.grossGenerationUnits
    fuelTypes := g.map mkBreakdownEntry }

/-- Embedding of `aggregate_plants` (`main.py` lines 211-276): group the cleaned rows by
plant code (ascending key order, stable within a group), aggregate each
group, and sort the records by generation descending. -/
def aggregate_plants (l : List RawRow) : List AggRecord :=
  sort_values_desc (fun rec => rec.grossGeneration)
    ((sortLeB strLeB ((l.map (fun r => r.plantCode)).dedup)).map
      (fun k => aggregateGroup k (l.filter (fun r => r.plantCode == k))))

/-! Concrete witness data for claim C4: plant `"7777"` with retained
volumes 100 and 200 and one `NaN` row removed by the cleaner. -/
def rawExRow1 : RawRow :=
  { period := "2025-02", plantCode := "7777", plantName := "Example Plant",
    state := "PA", stateDescription := some "Pennsylvania", fuel2002 := "NG",
    fuelTypeDescription := some "natural gas", primeMover := "CT",
    grossGeneration := .num 100, grossGenerationUnits := "megawatthours" }

def rawExRow2 : RawRow :=
  { rawExRow1 with primeMover := "CA", grossGeneration := .num 200 }

def rawExRow3 : RawRow :=
  { rawExRow1 with primeMover := "ST", grossGeneration := .missing }

def rawEx : List RawRow := [rawExRow1, rawExRow2, rawExRow3]

def aggEx : AggRecord :=
  { period := "2025-02", plantCode := "7777", plantName := "Example Plant",
    state := "PA", stateDescription := some "Pennsylvania",
    fuelTypeDescription := "natural gas", grossGeneration := 300,
    grossGenerationUnits := "megawatthours",
    fuelTypes := [mkBreakdownEntry rawExRow1, mkBreakdownEntry rawExRow2] }

/-! ### Reference merge (`merge_with_csv`, `main.py` lines 279-428)

A reference-table row carries exactly the columns the merge reads;
cells that may be `NaN` are `Option`s.  `State_y` is the name under which
the merge reads the reference-side state column of the joined frame.  The
twelve per-fuel capacity columns are kept as a name/value list in column
order. -/
structure CsvRow where
  Plant_Code : String
  Plant_Name : Option String
  Utility_Name : Option String
  Street_Address : Option String
  City : Option String
  State_y : Option String
  Zip : Option String
  Longitude : Option ℚ
  Latitude : Option ℚ
  Total_MW : Option ℚ
  PrimSource : Option String
  source_desc : Option String
  tech_desc : Option String
  sector_name : Option String
  caps : List (String × Option ℚ)
deriving DecidableEq

/-- The output record of the merge (`main.py` lines 386-411). -/
structure FinalRecord where
  plantCode : String
  plantName : String
  utilityName : Option String
  address : Option String
  longitude : Option ℚ
  latitude : Option ℚ
  state : String
  stateDescription : Option String
  period : String
  grossGeneration : ℚ
  grossGenerationUnits : String
  fuelTypeDescription : String
  fuelTypes : List FuelBreakdownEntry
  totalCapacityMW : Option ℚ
  capacityByType : List (String × ℚ)
  capacityFactorPercent : Option ℚ
  primarySource : Option String
  sourceDescription : Option String
  techDescription : Option String
  sectorName : Option String
  dataSource : String
deriving DecidableEq

/-- Capacity-factor computation (`main.py` lines 343-357): present exactly
when `Total_MW` and the generation volume are non-null and the capacity is
strictly positive; February 2025 gives the fixed period 24 h × 28 d.
(`float(total_mw or 0) > 0` equals `0 < mw` on a non-null numeric cell.) -/
def capacity_factor (total_mw generation : Option ℚ) : Option ℚ :=
  match total_mw, generation with
  | some mw, some g => if 0 < mw then some (g / (mw * 24 * 28) * 100) else none
  | _, _ => none

/-- Composite address (`main.py` lines 312-323): the present components of
street, city, reference-side state, zip joined by `", "`, absent when no
component is present. -/
def addressOf (c : Option CsvRow) : Option String :=
  let parts :=
    match c with
    | none => []
    | some cr => [cr.Street_Address, cr.City, cr.State_y, cr.Zip].filterMap id
  if parts.isEmpty then none else some (String.intercalate ", " parts)

/-- Sparse capacity mapping (`main.py` lines 325-336): keep a capacity
column iff its cell is non-null and strictly positive; an unmatched join
row has every capacity cell null. -/
def capacityByTypeOf (c : Option CsvRow) : List (String × ℚ) :=
  match c with
  | none => []
  | some cr =>
    cr.caps.filterMap (fun p =>
      match p.2 with
      | some q => if 0 < q then some (p.1, q) else none
      | none => none)

/-- Build one output record from an aggregated record and its (possibly
absent) matched reference row (`main.py` lines 311-413).  Reading a
reference column through `Option.bind` is `row.get(col)` returning `NaN`
on an unmatched left-join row. -/
def buildFinal (a : AggRecord) (c : Option CsvRow) : FinalRecord :=
  { plantCode := a.plantCode
    plantName :=
      match c.bind (fun cr => cr.Plant_Name) with
      | some n => n
      | none => a.plantName
    utilityName := c.bind (fun cr => cr.Utility_Name)
    address := addressOf c
    longitude := c.bind (fun cr => cr.Longitude)
    latitude := c.bind (fun cr => cr.Latitude)
    state :=
      match c.bind (fun cr => cr.State_y) with
      | some s => s
      | none => a.state
    stateDescription := a.stateDescription
    period := a.period
    grossGeneration := a.grossGeneration
    grossGenerationUnits := a.grossGenerationUnits
    fuelTypeDescription := a.fuelTypeDescription
    fuelTypes := a.fuelTypes
    totalCapacityMW := c.bind (fun cr => cr.Total_MW)
    capacityByType := capacityByTypeOf c
    capacityFactorPercent :=
      capacity_factor (c.bind (fun cr => cr.Total_MW)) (some a.grossGeneration)
    primarySource := c.bind (fun cr => cr.PrimSource)
    sourceDescription := c.bind (fun cr => cr.source_desc)
    techDescription := c.bind (fun cr => cr.tech_desc)
    sectorName := c.bind (fun cr => cr.sector_name)
    dataSource :=
      if (c.bind (fun cr => cr.Plant_Name)).isSome then "API_CSV_Merged"
      else "API_Only" }

/-- One left row's slice of `pd.merge(api_df, csv_df, left_on="plantCode",
right_on="Plant_Code", how="left")`: all matching reference rows in
order, or a single all-null pairing when none matches. -/
def matchRows (csv : List CsvRow) (a : AggRecord) : List (AggRecord × Option CsvRow) :=
  let ms := csv.filter (fun cr => cr.Plant_Code == a.plantCode)
  if ms.isEmpty then [(a, none)] else ms.map (fun cr => (a, some cr))

/-- The left join, preserving left-row order. -/
def merge_rows (api : List AggRecord) (csv : List CsvRow) :
    List (AggRecord × Option CsvRow) :=
  (api.map (matchRows csv)).flatten

/-- Embedding of `merge_with_csv` (`main.py` lines 279-428): left-join the aggregated
records with the reference table, build the output records, and sort them
by generation descending. -/
def merge_with_csv (api : List AggRecord) (csv : List CsvRow) : List FinalRecord :=
  sort_values_desc (fun r => r.grossGeneration)
    ((merge_rows api csv).map (fun p => buildFinal p.1 p.2))

/-- An aggregated record matching nothing in the reference table. -/
def aggW : AggRecord :=
  { period := "2025-02", plantCode := "42", plantName := "Lone Plant",
    state := "TX", stateDescription := some "Texas",
    fuelTypeDescription := "wind", grossGeneration := 5,
    grossGenerationUnits := "megawatthours", fuelTypes := [] }

/-- An aggregated record whose plant code occurs twice in the reference
table. -/
def aggDup : AggRecord :=
  { period := "2025-02", plantCode := "1", plantName := "Twin Plant",
    state := "OH", stateDescription := some "Ohio",
    fuelTypeDescription := "coal", grossGeneration := 5,
    grossGenerationUnits := "megawatthours", fuelTypes := [] }

def csvDup1 : CsvRow :=
  { Plant_Code := "1", Plant_Name := some "Ref A", Utility_Name := none,
    Street_Address := none, City := none, State_y := none, Zip := none,
    Longitude := none, Latitude := none, Total_MW := none,
    PrimSource := none, source_desc := none, tech_desc := none,
    sector_name := none, caps := [] }

def csvDup2 : CsvRow := { csvDup1 with Plant_Name := some "Ref B" }

/-! ### AI enrichment (`enrich_with_deepseek`, `deepseek_enrichment.py`)

The enrichment reads the merged records back from JSON; the columns it
touches are embedded as `EnrichedRow`.  The remote classifier is an oracle
`Nat → Option (List (String × String))`: batch `i` either fails (`none`:
transport error, non-200 status, or unparseable content) or returns the
parsed JSON object as a key/value list in iteration order.  An empty
parsed object falls into the failure branch of the source
(`if success and flags:`). -/
structure EnrichedRow where
  plantName : String
  capacityFactorPercent : Option ℚ
  fuelTypeDescription : Option String
  totalCapacityMW : Option ℚ
  state : Option String
deriving DecidableEq

/-- One element of `analysis_data` (`deepseek_enrichment.py` lines 164-170). -/
structure PlantInfo where
  plantName : String
  fuelType : String
  capacityFactor : ℚ
  capacity : Option ℚ
  state : Option String
deriving DecidableEq

/-- A row joins `analysis_data` iff both its capacity factor and its fuel
description are non-null (`deepseek_enrichment.py` lines 160-170). -/
def toAnalysis (r : EnrichedRow) : Option PlantInfo :=
  match r.capacityFactorPercent, r.fuelTypeDescription with
  | some cf, some ft =>
    some { plantName := r.plantName, fuelType := ft, capacityFactor := cf,
           capacity := r.totalCapacityMW, state := r.state }
  | _, _ => none

def analysisData (df : List EnrichedRow) : List PlantInfo :=
  df.filterMap toAnalysis

/-- The constant `batch_size = 25` (`deepseek_enrichment.py` line 175). -/
def batch_size : Nat := 25

/-- Fuel-parameter variant of `analysis_data[i:i+batch_size]` slicing; the
fuel bounds the recursion depth and `l.length` fuel always suffices. -/
def chunksOfAux {α : Type} : Nat → List α → List (List α)
  | 0, _ => []
  | _, [] => []
  | Nat.succ fuel, a :: l =>
    ((a :: l).take batch_size) :: chunksOfAux fuel ((a :: l).drop batch_size)

/-- The batch decomposition of the analysis data. -/
def chunksOf {α : Type} (l : List α) : List (List α) :=
  chunksOfAux l.length l

/-- Python `dict` update of one key: overwrite in place if present, else
append (`flagged_plants[name] = flag` / `flagged_plants.update(flags)`). -/
def dictUpd (m : List (String × String)) (k v : String) : List (String × String) :=
  if m.any (fun p => p.1 == k) then
    m.map (fun p => if p.1 == k then (k, v) else p)
  else m ++ [(k, v)]

/-- Python `flagged_plants.update(flags)` over a parsed response object. -/
def dictUpdMany (m : List (String × String)) (es : List (String × String)) :
    List (String × String) :=
  es.foldl (fun acc e => dictUpd acc e.1 e.2) m

/-- The failed-batch branch (`deepseek_enrichment.py` lines 203-209): store
each batch plant's deterministic flag under its plant name. -/
def fallbackFlags (m : List (String × String)) (batch : List PlantInfo) :
    List (String × String) :=
  batch.foldl (fun acc p =>
    dictUpd acc p.plantName
      (flag_basic_capacity_factor (some p.capacityFactor) (some p.fuelType))) m

/-- The batch loop (`deepseek_enrichment.py` lines 185-212): on a
successful non-empty response merge its flags into the collected map,
otherwise merge the deterministic fallback flags of the batch. -/
def collectFlags (resp : Nat → Option (List (String × String))) :
    List (List PlantInfo) → Nat → List (String × String) → List (String × String)
  | [], _, m => m
  | b :: bs, i, m =>
    collectFlags resp bs (i + 1)
      (match resp i with
       | some flags => if flags.isEmpty then fallbackFlags m b else dictUpdMany m flags
       | none => fallbackFlags m b)

/-- The complete collected `flagged_plants` map of a run. -/
def flagged_plants (df : List EnrichedRow)
    (resp : Nat → Option (List (String × String))) : List (String × String) :=
  collectFlags resp (chunksOf (analysisData df)) 0 []

/-- The deterministic flag a row receives in the initial
`df["capacityFactorFlag"]` pass (`deepseek_enrichment.py` lines 154-156). -/
def detFlag (r : EnrichedRow) : String :=
  flag_basic_capacity_factor r.capacityFactorPercent r.fuelTypeDescription

/-- The final update loop (`deepseek_enrichment.py` lines 216-219): for
each collected entry, set every record whose `plantName` equals the entry's
key to `"AI_" ++ flag` (the source's `if mask.any()` guard is a no-op,
since updating an empty selection changes nothing). -/
def applyAIFlags (rows : List (EnrichedRow × String))
    (es : List (String × String)) : List (EnrichedRow × String) :=
  es.foldl (fun acc e =>
    acc.map (fun rf => if rf.1.plantName == e.1 then (rf.1, "AI_" ++ e.2) else rf)) rows

/-- Embedding of `enrich_with_deepseek` (`deepseek_enrichment.py` lines 130-244),
restricted to its flag semantics: pair every record with its deterministic
flag, then apply the collected per-name flags with the `AI_` prefix. -/
def enrich_with_deepseek (df : List EnrichedRow)
    (resp : Nat → Option (List (String × String))) : List (EnrichedRow × String) :=
  applyAIFlags (df.map (fun r => (r, detFlag r))) (flagged_plants df resp)

/-- Last-entry-wins association lookup (the net effect of sequential
per-entry overwrites). -/
def lastLookup : List (String × String) → String → Option String
  | [], _ => none
  | e :: es, k =>
    match lastLookup es k with
    | some v => some v
    | none => if e.1 == k then some e.2 else none

/-! ### Concrete classifier runs used for claims C1 and C9 -/
/-- A single merged record: nuclear fuel, capacity factor 50, so its
deterministic flag is `Unusual_Nuclear`. -/
def nucRow : EnrichedRow :=
  { plantName := "Plant P", capacityFactorPercent := some 50,
    fuelTypeDescription := some "Nuclear", totalCapacityMW := some 100,
    state := some "PA" }

/-- A remote classifier whose every call fails (e.g. HTTP 500). -/
def respFail : Nat → Option (List (String × String)) := fun _ => none

/-! ### The label spaces of claim C9 -/
/-- The deterministic labels of `flag_basic_capacity_factor`. -/
def detLabels : List String :=
  ["No_Data", "Normal", "Unusual_Nuclear", "Unusual_Fossil", "Unusual_Hydro",
   "Unusual_Wind", "Unusual_Solar"]

/-- String starts-with test. -/
def chStartsWith (p s : String) : Bool := pfxEq p.data s.data

/-- Drop the first `n` characters. -/
def strDropData (s : String) (n : Nat) : String := ⟨s.data.drop n⟩

/-- The enumerated label space exactly as claim C9 words it: `No_Data`,
`Normal`, `Unusual_<FuelCategory>`, or `AI_<Label>` with `<Label>` one of
`Normal`, `High_<FuelType>`, `Low_<FuelType>`, `Extreme_<FuelType>`,
`Mixed_Fuel_Unusual` (the category and fuel-type parts left free). -/
def specLabelSpaceB (s : String) : Bool :=
  s == "No_Data" || s == "Normal" || chStartsWith "Unusual_" s
    || (chStartsWith "AI_" s &&
        (let rest := strDropData s 3
         rest == "Normal" || rest == "Mixed_Fuel_Unusual"
           || chStartsWith "High_" rest || chStartsWith "Low_" rest
           || chStartsWith "Extreme_" rest))

/-- A remote classifier answering the single batch with an arbitrary label
string for the plant. -/
def respGarbage : Nat → Option (List (String × String)) :=
  fun _ => some [("Plant P", "Garbage")]

/-! ## Theorems -/

/-! ### Claim C2 : deterministic nuclear rule and the No_Data rule -/
/-- Claim C2: for a record with a present capacity factor whose fuel
description contains "nuclear" (case-insensitively), the deterministic flag
is `Unusual_Nuclear` iff the capacity factor lies outside the inclusive
range [70,110] and `Normal` otherwise; and for a record with an absent
capacity factor the flag is exactly `No_Data`, whatever the fuel
description. -/
theorem nuclear_and_no_data_rule :
    (∀ (c : ℚ) (fd : Option String),
       containsSub "nuclear" (strLower (strOfCell fd)) = true →
       (flag_basic_capacity_factor (some c) fd = "Unusual_Nuclear" ↔ (c < 70 ∨ 110 < c))
         ∧ (flag_basic_capacity_factor (some c) fd = "Normal" ↔ (70 ≤ c ∧ c ≤ 110)))
      ∧ ∀ fd : Option String, flag_basic_capacity_factor none fd = "No_Data" := by
  constructor
  · intro c fd h
    unfold flag_basic_capacity_factor
    simp only [h, if_true]
    split_ifs with hc
    · refine ⟨⟨fun _ => hc, fun _ => rfl⟩, ⟨fun hcontra => absurd hcontra (by decide), ?_⟩⟩
      intro hin
      exact absurd hc (not_or.2 ⟨not_lt.2 hin.1, not_lt.2 hin.2⟩)
    · push_neg at hc
      exact ⟨⟨fun hcontra => absurd hcontra (by decide),
              fun hout => absurd hout (not_or.2 ⟨not_lt.2 hc.1, not_lt.2 hc.2⟩)⟩,
             ⟨fun _ => hc, fun _ => rfl⟩⟩
  · intro fd
    rfl

/-- Witness for claim C2 at a concrete input: a nuclear plant at capacity
factor 50 is flagged `Unusual_Nuclear`, and an absent capacity factor is
flagged `No_Data`. -/
theorem nuclear_and_no_data_rule_witness :
    flag_basic_capacity_factor (some 50) (some "Nuclear") = "Unusual_Nuclear"
      ∧ flag_basic_capacity_factor none (some "Nuclear") = "No_Data" :=
  ⟨((nuclear_and_no_data_rule.1 50 (some "Nuclear") (by decide)).1).mpr
      (by norm_num),
    nuclear_and_no_data_rule.2 (some "Nuclear")⟩

/-- The cleaner's keep mask agrees pointwise with the negated claim-C5
discard condition. -/
theorem keep_eq_not_discard (x : RawRow) :
    (!allMask x && !zeroGenMask x && !plant99999Mask x) = !discardSpecB x := by
  cases hx : x.grossGeneration <;>
    simp [allMask, zeroGenMask, plant99999Mask, discardSpecB, coerceRow,
      coerceVal, GenVal.toNum, hx, Bool.not_or, Bool.and_assoc]

/-- Claim C5: `clean_data` discards a raw row exactly when its fuel code or
prime-mover code equals `"ALL"`, or its coerced generation volume is absent
or exactly zero, or its plant identifier equals `"99999"`; all other rows
are kept in their original order with no mutation beyond the numeric
coercion (the output is literally the coercion-mapped input filtered by the
negated discard predicate). -/
theorem clean_data_discard_rule (l : List RawRow) :
    clean_data l = (l.map coerceRow).filter (fun r => !discardSpecB r) := by
  unfold clean_data
  exact List.filter_congr (fun a _ => keep_eq_not_discard a)

/-! ### Claim C8 : cleaning is idempotent -/
/-- Coercion is idempotent on cells. -/
theorem coerceVal_idem (v : GenVal) : coerceVal (coerceVal v) = coerceVal v := by
  cases v <;> rfl

/-- Coercion is idempotent on rows. -/
theorem coerceRow_idem (r : RawRow) : coerceRow (coerceRow r) = coerceRow r := by
  cases r; simp [coerceRow, coerceVal_idem]

/-- The keep predicate of `clean_data` is invariant under coercion. -/
theorem keep_coerce (r : RawRow) :
    (!allMask (coerceRow r) && !zeroGenMask (coerceRow r) && !plant99999Mask (coerceRow r))
      = (!allMask r && !zeroGenMask r && !plant99999Mask r) := by
  cases r with
  | mk period plantCode plantName state stateDescription fuel2002
      fuelTypeDescription primeMover grossGeneration grossGenerationUnits =>
    cases grossGeneration <;>
      simp [allMask, zeroGenMask, plant99999Mask, coerceRow, coerceVal]

/-- Claim C8: the cleaner is idempotent — applying `clean_data` to its own
output removes no further rows and changes nothing (fixed point). -/
theorem clean_data_idempotent (l : List RawRow) :
    clean_data (clean_data l) = clean_data l := by
  unfold clean_data
  have h1 : ((l.map coerceRow).filter
        (fun r => !allMask r && !zeroGenMask r && !plant99999Mask r)).map coerceRow
      = (l.map coerceRow).filter
        (fun r => !allMask r && !zeroGenMask r && !plant99999Mask r) := by
    have hid : ∀ x ∈ (l.map coerceRow).filter
        (fun r => !allMask r && !zeroGenMask r && !plant99999Mask r),
        coerceRow x = x := by
      intro x hx
      obtain ⟨r, _, rfl⟩ := List.mem_map.1 (List.mem_of_mem_filter hx)
      exact coerceRow_idem r
    calc ((l.map coerceRow).filter
            (fun r => !allMask r && !zeroGenMask r && !plant99999Mask r)).map coerceRow
        = ((l.map coerceRow).filter
            (fun r => !allMask r && !zeroGenMask r && !plant99999Mask r)).map id :=
          List.map_congr_left hid
      _ = _ := List.map_id _
  rw [h1]
  apply List.filter_eq_self.mpr
  intro a ha
  exact (List.mem_filter.1 ha).2

theorem insertLeB_perm {α : Type} (le : α → α → Bool) (a : α) (l : List α) :
    (insertLeB le a l).Perm (a :: l) := by
  induction l with
  | nil => exact List.Perm.refl _
  | cons b t ih =>
    unfold insertLeB
    split_ifs
    · exact List.Perm.refl _
    · exact (ih.cons b).trans (List.Perm.swap a b t)

theorem sortLeB_perm {α : Type} (le : α → α → Bool) (l : List α) :
    (sortLeB le l).Perm l := by
  induction l with
  | nil => exact List.Perm.refl _
  | cons a t ih => exact (insertLeB_perm le a (sortLeB le t)).trans (ih.cons a)

/-- The descending sort is a permutation of its input. -/
theorem sort_values_desc_perm {α : Type} (key : α → ℚ) (l : List α) :
    (sort_values_desc key l).Perm l := by
  unfold sort_values_desc
  exact (List.reverse_perm _).trans ((sortLeB_perm _ _).trans (List.reverse_perm _))

/-! ### Claim C4 : breakdown totals and counts -/
/-- Every row surviving the cleaner carries a parsed numeric generation. -/
theorem clean_data_gen_num (raw : List RawRow) :
    ∀ r ∈ clean_data raw, ∃ q : ℚ, r.grossGeneration = GenVal.num q := by
  intro r hr
  obtain ⟨-, hkeep⟩ := List.mem_filter.1 hr
  cases hg : r.grossGeneration with
  | num q => exact ⟨q, rfl⟩
  | nonNumeric => simp [zeroGenMask, hg] at hkeep
  | missing => simp [zeroGenMask, hg] at hkeep

/-- A list of all-numeric generation cells is a mapped list of rationals
whose plain sum is the `NaN`-skipping pandas sum. -/
theorem exists_rat_list (g : List RawRow)
    (h : ∀ r ∈ g, ∃ q : ℚ, r.grossGeneration = GenVal.num q) :
    ∃ qs : List ℚ, g.map (fun r => r.grossGeneration) = qs.map GenVal.num
      ∧ qs.sum = sumSkipNA (g.map (fun r => r.grossGeneration)) := by
  induction g with
  | nil => exact ⟨[], rfl, rfl⟩
  | cons a t ih =>
    obtain ⟨q, hq⟩ := h a (by simp)
    obtain ⟨qs, hmap, hsum⟩ := ih (fun r hr => h r (by simp [hr]))
    refine ⟨q :: qs, by simp [hq, hmap], ?_⟩
    rw [List.sum_cons, hsum]
    simp [sumSkipNA, List.filterMap_cons, hq, GenVal.toNum]

/-- Claim C4: every aggregated record's fuel-breakdown entries all carry
present numeric generation values summing to the record's total generation,
and the breakdown has exactly one entry per cleaned row folded into that
plant (the rows whose plant code matches the record's). -/
theorem aggregate_breakdown_invariant (raw : List RawRow) (rec : AggRecord)
    (hrec : rec ∈ aggregate_plants (clean_data raw)) :
    (∃ qs : List ℚ, rec.fuelTypes.map (fun e => e.generation) = qs.map GenVal.num
        ∧ qs.sum = rec.grossGeneration)
      ∧ rec.fuelTypes.length
          = ((clean_data raw).filter (fun r => r.plantCode == rec.plantCode)).length := by
  unfold aggregate_plants at hrec
  replace hrec := ((sort_values_desc_perm _ _).mem_iff).1 hrec
  obtain ⟨k, -, rfl⟩ := List.mem_map.1 hrec
  have hcode : (aggregateGroup k
      ((clean_data raw).filter (fun r => r.plantCode == k))).plantCode = k := rfl
  rw [hcode]
  constructor
  · obtain ⟨qs, hmap, hsum⟩ := exists_rat_list
      ((clean_data raw).filter (fun r => r.plantCode == k))
      (fun r hr => clean_data_gen_num raw r (List.mem_of_mem_filter hr))
    refine ⟨qs, ?_, hsum.symm ▸ rfl⟩
    show (((clean_data raw).filter (fun r => r.plantCode == k)).map
        mkBreakdownEntry).map (fun e => e.generation) = qs.map GenVal.num
    rw [List.map_map]
    exact hmap
  · show (((clean_data raw).filter (fun r => r.plantCode == k)).map
        mkBreakdownEntry).length = _
    rw [List.length_map]

/-- Concrete evaluation of the cleaner plus aggregator on the witness data
(the `Nat.gcd` inside `Rat` addition is not kernel-reducible, hence
`norm_num` rather than `decide` for the generation total). -/
theorem aggregate_plants_rawEx_eval :
    aggregate_plants (clean_data rawEx) = [aggEx] := by
  have h1 : clean_data rawEx = [rawExRow1, rawExRow2] := by decide
  rw [h1]
  simp [aggregate_plants, sort_values_desc, sortLeB, insertLeB,
    aggregateGroup, aggEx, mkBreakdownEntry, rawExRow1, rawExRow2, rawExRow3,
    defaultRawRow]
  constructor
  · decide
  · simp [sumSkipNA, GenVal.toNum]
    norm_num

/-- Witness for claim C4: volumes `[100, 200, NaN]` aggregate to total 300
with exactly two breakdown entries. -/
theorem aggregate_breakdown_invariant_witness :
    aggEx ∈ aggregate_plants (clean_data rawEx)
      ∧ ((∃ qs : List ℚ,
            aggEx.fuelTypes.map (fun e => e.generation) = qs.map GenVal.num
              ∧ qs.sum = aggEx.grossGeneration)
          ∧ aggEx.fuelTypes.length
              = ((clean_data rawEx).filter
                  (fun r => r.plantCode == aggEx.plantCode)).length) :=
  ⟨by rw [aggregate_plants_rawEx_eval]; exact List.mem_singleton.mpr rfl,
    aggregate_breakdown_invariant rawEx aggEx
      (by rw [aggregate_plants_rawEx_eval]; exact List.mem_singleton.mpr rfl)⟩

/-! ### Claim C3 : the capacity-factor invariant -/
/-- Claim C3: a merged record's `capacityFactorPercent` is present iff the
reference capacity is present and strictly positive and the generation
volume is present; when present it is
`generation / (capacity × 24 × 28) × 100`; and capacity 100 MW with
generation 33600 MWh gives exactly 50. -/
theorem capacity_factor_invariant :
    (∀ total_mw generation : Option ℚ,
        (capacity_factor total_mw generation).isSome
          ↔ (∃ mw, total_mw = some mw ∧ 0 < mw) ∧ generation.isSome)
      ∧ (∀ mw g : ℚ, 0 < mw →
          capacity_factor (some mw) (some g) = some (g / (mw * 24 * 28) * 100))
      ∧ (∀ (a : AggRecord) (c : Option CsvRow),
          (buildFinal a c).capacityFactorPercent
            = capacity_factor (c.bind (fun cr => cr.Total_MW)) (some a.grossGeneration))
      ∧ capacity_factor (some 100) (some 33600) = some 50 := by
  refine ⟨?_, ?_, fun a c => rfl, ?_⟩
  · intro total_mw generation
    cases total_mw with
    | none => simp [capacity_factor]
    | some mw =>
      cases generation with
      | none => simp [capacity_factor]
      | some g =>
        by_cases hmw : 0 < mw
        · simp [capacity_factor, hmw]
        · simp [capacity_factor, hmw]
  · intro mw g hmw
    simp [capacity_factor, hmw]
  · have h : ((33600 : ℚ) / (100 * 24 * 28) * 100) = 50 := by norm_num
    simp [capacity_factor, h]

/-- Witness for claim C3 at the concrete round-trip input of the claim. -/
theorem capacity_factor_invariant_witness :
    capacity_factor (some 100) (some 33600) = some ((33600 : ℚ) / (100 * 24 * 28) * 100) :=
  capacity_factor_invariant.2.1 100 33600 (by norm_num)

/-! ### Claim C6 : left-join shape -/
/-- Under a duplicate-free reference key column, filtering by one key gives
the empty list or a singleton. -/
theorem filter_code_nil_or_singleton (csv : List CsvRow)
    (h : (csv.map (fun c => c.Plant_Code)).Nodup) (x : String) :
    csv.filter (fun c => c.Plant_Code == x) = []
      ∨ ∃ c, csv.filter (fun c => c.Plant_Code == x) = [c] := by
  induction csv with
  | nil => exact Or.inl rfl
  | cons a t ih =>
    rw [List.map_cons, List.nodup_cons] at h
    obtain ⟨hna, hnt⟩ := h
    by_cases hax : a.Plant_Code = x
    · have ht : t.filter (fun c => c.Plant_Code == x) = [] := by
        rw [List.filter_eq_nil_iff]
        intro c hc
        simp only [beq_iff_eq]
        intro hcx
        exact hna (by rw [hax, ← hcx]; exact List.mem_map_of_mem _ hc)
      refine Or.inr ⟨a, ?_⟩
      rw [List.filter_cons_of_pos (by simp [hax]), ht]
    · rcases ih hnt with h0 | ⟨c, hc⟩
      · exact Or.inl (by rw [List.filter_cons_of_neg (by simp [hax]), h0])
      · exact Or.inr ⟨c, by rw [List.filter_cons_of_neg (by simp [hax]), hc]⟩

/-- Under a duplicate-free reference key column every aggregated record
produces exactly one joined pair, in order. -/
theorem merge_rows_fst (api : List AggRecord) (csv : List CsvRow)
    (h : (csv.map (fun c => c.Plant_Code)).Nodup) :
    (merge_rows api csv).map (fun p => p.1) = api := by
  induction api with
  | nil => rfl
  | cons a t ih =>
    have hstep : merge_rows (a :: t) csv = matchRows csv a ++ merge_rows t csv := by
      simp [merge_rows]
    rw [hstep, List.map_append, ih]
    rcases filter_code_nil_or_singleton csv h a.plantCode with h0 | ⟨c, hc⟩
    · simp [matchRows, h0]
    · simp [matchRows, hc]

/-- An aggregated record matching no reference row joins with `none`. -/
theorem merge_rows_mem_unmatched (api : List AggRecord) (csv : List CsvRow)
    (a : AggRecord) (ha : a ∈ api)
    (hm : csv.filter (fun cr => cr.Plant_Code == a.plantCode) = []) :
    (a, (none : Option CsvRow)) ∈ merge_rows api csv := by
  unfold merge_rows
  rw [List.mem_flatten]
  refine ⟨matchRows csv a, List.mem_map_of_mem _ ha, ?_⟩
  simp [matchRows, hm]

/-- Claim C6 (amended): provided the reference table has at most one row
per plant identifier, the merge is a left join in which every aggregated
record appears exactly once (the output plant codes are a permutation of
the input ones), and an aggregated record matching no reference row yields
a record with `dataSource = "API_Only"`, every reference-only field absent
and the capacity mapping empty, with no failure. -/
theorem left_join_shape (api : List AggRecord) (csv : List CsvRow)
    (hnd : (csv.map (fun c => c.Plant_Code)).Nodup) :
    ((merge_with_csv api csv).map (fun r => r.plantCode)).Perm
        (api.map (fun a => a.plantCode))
      ∧ ∀ a ∈ api, (∀ cr ∈ csv, cr.Plant_Code ≠ a.plantCode) →
          buildFinal a none ∈ merge_with_csv api csv
            ∧ (buildFinal a none).dataSource = "API_Only"
            ∧ (buildFinal a none).utilityName = none
            ∧ (buildFinal a none).address = none
            ∧ (buildFinal a none).longitude = none
            ∧ (buildFinal a none).latitude = none
            ∧ (buildFinal a none).totalCapacityMW = none
            ∧ (buildFinal a none).capacityByType = []
            ∧ (buildFinal a none).capacityFactorPercent = none
            ∧ (buildFinal a none).primarySource = none
            ∧ (buildFinal a none).sourceDescription = none
            ∧ (buildFinal a none).techDescription = none
            ∧ (buildFinal a none).sectorName = none := by
  constructor
  · have hperm : (merge_with_csv api csv).Perm
        ((merge_rows api csv).map (fun p => buildFinal p.1 p.2)) :=
      sort_values_desc_perm _ _
    have h1 : (((merge_rows api csv).map (fun p => buildFinal p.1 p.2)).map
        (fun r => r.plantCode)) = api.map (fun a => a.plantCode) := by
      rw [List.map_map]
      have hcomp : ((fun r : FinalRecord => r.plantCode)
            ∘ fun p : AggRecord × Option CsvRow => buildFinal p.1 p.2)
          = (fun a : AggRecord => a.plantCode)
            ∘ (fun p : AggRecord × Option CsvRow => p.1) := rfl
      rw [hcomp, ← List.map_map, merge_rows_fst api csv hnd]
    exact h1 ▸ hperm.map (fun r => r.plantCode)
  · intro a ha hnomatch
    have hm : csv.filter (fun cr => cr.Plant_Code == a.plantCode) = [] := by
      rw [List.filter_eq_nil_iff]
      intro cr hcr
      simpa using hnomatch cr hcr
    have hmem : buildFinal a none ∈ merge_with_csv api csv := by
      unfold merge_with_csv
      rw [(sort_values_desc_perm _ _).mem_iff]
      exact List.mem_map.2
        ⟨(a, none), merge_rows_mem_unmatched api csv a ha hm, rfl⟩
    exact ⟨hmem, rfl, rfl, rfl, rfl, rfl, rfl, rfl, rfl, rfl, rfl, rfl, rfl⟩

/-- Witness for claim C6 (amended): one aggregated record merged against an
empty reference table appears exactly once and comes out `"API_Only"`. -/
theorem left_join_shape_witness :
    ((merge_with_csv [aggW] []).map (fun r => r.plantCode)).Perm
        ([aggW].map (fun a => a.plantCode))
      ∧ (buildFinal aggW none).dataSource = "API_Only"
      ∧ (buildFinal aggW none).utilityName = none
      ∧ buildFinal aggW none ∈ merge_with_csv [aggW] [] := by
  have h := left_join_shape [aggW] [] (by simp)
  have h2 := h.2 aggW (by simp) (by simp)
  exact ⟨h.1, h2.2.1, h2.2.2.1, h2.1⟩

/-- Counterexample to claim C6 as stated: with a reference table holding
two rows for plant code `"1"`, the single aggregated record appears twice
in the merge output, not exactly once. -/
theorem left_join_duplicate_keys :
    ((merge_with_csv [aggDup] [csvDup1, csvDup2]).map (fun r => r.plantCode))
        = ["1", "1"]
      ∧ [aggDup].length = 1 := by decide

/-- The update loop rewrites each row independently: a row gets
`"AI_" ++ v` where `v` is the last collected flag stored under its plant
name, and keeps its current flag when no entry matches. -/
theorem applyAIFlags_eq (es : List (String × String))
    (rows : List (EnrichedRow × String)) :
    applyAIFlags rows es = rows.map (fun rf =>
      match lastLookup es rf.1.plantName with
      | some v => (rf.1, "AI_" ++ v)
      | none => rf) := by
  induction es generalizing rows with
  | nil =>
    simp [applyAIFlags, lastLookup]
  | cons e es ih =>
    have hstep : applyAIFlags rows (e :: es)
        = applyAIFlags (rows.map (fun rf =>
            if rf.1.plantName == e.1 then (rf.1, "AI_" ++ e.2) else rf)) es := rfl
    rw [hstep, ih, List.map_map]
    apply List.map_congr_left
    intro rf _
    by_cases hname : rf.1.plantName = e.1
    · cases hl : lastLookup es e.1 with
      | some v => simp [Function.comp, lastLookup, hname, hl]
      | none => simp [Function.comp, lastLookup, hname, hl]
    · cases hl : lastLookup es rf.1.plantName with
      | some v => simp [Function.comp, lastLookup, hname, hl]
      | none => simp [Function.comp, lastLookup, hname, hl, Ne.symm hname]

/-! ### Claim C10 : AI flags are applied by plant name -/
/-- Claim C10: the AI pass matches records by plant name — every record
whose `plantName` carries an entry in the collected flag map ends with
`"AI_" ++` that entry's label (so all same-named records get the same
flag), and every other record keeps its deterministic flag (a collected
name matching no record changes nothing). -/
theorem ai_flags_match_by_name (df : List EnrichedRow)
    (resp : Nat → Option (List (String × String))) :
    enrich_with_deepseek df resp
      = df.map (fun r =>
          match lastLookup (flagged_plants df resp) r.plantName with
          | some v => (r, "AI_" ++ v)
          | none => (r, detFlag r)) := by
  unfold enrich_with_deepseek
  rw [applyAIFlags_eq, List.map_map]
  apply List.map_congr_left
  intro r _
  cases hl : lastLookup (flagged_plants df resp) r.plantName <;>
    simp [Function.comp, hl]

/-- Claim C1 is violated by the code: when the only batch's remote call
fails, the plant's final flag is `"AI_Unusual_Nuclear"` — the deterministic
flag does get stored by the fallback branch, but the final update loop
prefixes every collected entry with `"AI_"`, so the plant does not keep its
deterministic flag `"Unusual_Nuclear"` unmodified. -/
theorem failed_batch_gets_ai_prefix :
    enrich_with_deepseek [nucRow] respFail = [(nucRow, "AI_Unusual_Nuclear")]
      ∧ detFlag nucRow = "Unusual_Nuclear" := by decide

/-- The deterministic flag always lands in the seven deterministic labels. -/
theorem flag_basic_mem_detLabels (cf : Option ℚ) (fd : Option String) :
    flag_basic_capacity_factor cf fd ∈ detLabels := by
  cases cf with
  | none => simp [flag_basic_capacity_factor, detLabels]
  | some c =>
    simp only [flag_basic_capacity_factor]
    split_ifs <;> simp [detLabels]

/-- Counterexample to claim C9: the code never validates the remote labels,
so a response mapping the plant to `"Garbage"` produces the final flag
`"AI_Garbage"`, which is outside the enumerated label space. -/
theorem remote_label_escapes_enumeration :
    (enrich_with_deepseek [nucRow] respGarbage).map (fun x => x.2) = ["AI_Garbage"]
      ∧ specLabelSpaceB "AI_Garbage" = false := by decide

/-- Claim C9 (amended): every final flag is either one of the seven
deterministic labels or of the form `"AI_" ++ s` where `s` is the string
stored in the collected flag map; membership in the enumerated AI label
kinds is guaranteed only when the remote labels themselves belong to it. -/
theorem flag_label_shape (df : List EnrichedRow)
    (resp : Nat → Option (List (String × String))) :
    ∀ x ∈ enrich_with_deepseek df resp,
      x.2 ∈ detLabels ∨ ∃ s, x.2 = "AI_" ++ s := by
  intro x hx
  unfold enrich_with_deepseek at hx
  rw [applyAIFlags_eq, List.map_map] at hx
  obtain ⟨r, -, rfl⟩ := List.mem_map.1 hx
  cases hl : lastLookup (flagged_plants df resp) r.plantName with
  | some v =>
    right
    exact ⟨v, by simp [Function.comp, hl]⟩
  | none =>
    left
    simp only [Function.comp, hl]
    simpa using flag_basic_mem_detLabels r.capacityFactorPercent r.fuelTypeDescription

/-- Witness for claim C9 (amended) at the garbage-response run. -/
theorem flag_label_shape_witness :
    ((nucRow, "AI_Garbage") : EnrichedRow × String).2 ∈ detLabels
      ∨ ∃ s, ((nucRow, "AI_Garbage") : EnrichedRow × String).2 = "AI_" ++ s :=
  flag_label_shape [nucRow] respGarbage (nucRow, "AI_Garbage") (by decide)

end EIAPipeline
